import Mathlib

/-!
Verification of the widget helpers repository: a shallow embedding of the
`DoubleSlider` class from `src/gui_elements.py` (the linear value-rescaling
slider subclass), the `Success`/`Failure` sentinel result types from
`src/messaging.py`, and the `Group` operations that return those sentinels.

Modelling conventions:
* Python floats are modelled as rationals (`ℚ`); the claims are about exact
  linear arithmetic and quantization tolerances, not about IEEE rounding.
* Python `int(x)` on a float truncates toward zero (`pyInt`).
* Fallible code returns `Except PyError _`.  `zeroDivision` is Python's
  `ZeroDivisionError` (raised by a float division whose divisor is zero);
  `recursionError` is the `RecursionError` raised when the call stack is
  exhausted; `attributeError` is the `AttributeError` raised by reading an
  instance attribute before it has been assigned; `domainError` is the error
  the spec asks for — no code in the repository defines or raises it.
* The `DoubleSlider` overrides call `self.value()` / `self.setValue(...)`,
  which dispatch through the Python MRO back to the overrides themselves —
  the source never calls `super()`.  The methods are therefore embedded with
  an explicit `fuel : Nat` argument standing for the remaining call-stack
  depth: each self-dispatch consumes one unit, and exhausting the fuel is
  Python's `RecursionError`.  The theorems below quantify over every fuel,
  so they cover Python's actual recursion limit (about a thousand frames)
  in particular.
* `DoubleSlider.__init__` never completes: its first statement
  `self.setMinimum(0)` dispatches to the float override `setMinimum`, whose
  body `self.setRange(value, self._max_value)` reads `self._max_value` —
  an attribute that is only assigned several statements later — so
  construction raises `AttributeError` (`construct` below).  The methods
  are nevertheless embedded over an arbitrary attribute state
  (`DoubleSlider` below), so each claim can be evaluated at the states it
  quantifies over.
-/

namespace Widgets

/-- Python truncation toward zero, the behaviour of `int()` applied to a
float: floor for non-negative arguments, ceiling for negative ones. -/
def pyInt (q : ℚ) : ℤ :=
  if q < 0 then ⌈q⌉ else ⌊q⌋

/-- Errors a Python computation in scope can signal.  `zeroDivision` is the
built-in `ZeroDivisionError`; `recursionError` is the built-in
`RecursionError` raised on call-stack exhaustion; `attributeError` is the
built-in `AttributeError` raised on reading an unassigned attribute;
`domainError` is the `DomainError` the spec asks for (no code in the
repository defines or raises it). -/
inductive PyError where
  | zeroDivision : PyError
  | recursionError : PyError
  | attributeError : PyError
  | domainError : PyError
deriving DecidableEq, Repr

/-! ### messaging.py: Success / Failure sentinels -/

/-- Common shape of the `Success` / `Failure` classes of `messaging.py`: both
subclass `int` (so the numeric value carries the truthiness) and store an
optional `_message` string. -/
structure PyResult where
  intVal : ℤ
  message : Option String
deriving DecidableEq, Repr

/-- `Failure.__new__` builds the object as `int.__new__(cls, bool(0))`, and
`__init__` stores the optional message (default `None`). -/
def Failure (message : Option String) : PyResult :=
  PyResult.mk 0 message

/-- `Success.__new__` builds the object as `int.__new__(cls, bool(1))`, and
`__init__` stores the optional message (default `None`). -/
def Success (message : Option String) : PyResult :=
  PyResult.mk 1 message

/-- Truthiness of a `Success`/`Failure` value in a boolean context: as `int`
subclasses (Python 3 ignores the legacy `__nonzero__` methods) the instances
are truthy exactly when their integer value is nonzero. -/
def PyResult.toBool (r : PyResult) : Bool :=
  r.intVal != 0

/-! ### gui_elements.py: DoubleSlider -/

/-- `self._max_int = 10000`, the scale factor the method bodies read.  (The
assignment in `__init__` is itself unreachable — construction fails one
statement earlier — but the bodies reference the attribute, and the methods
are embedded over attribute states that carry it.) -/
def maxInt : ℤ := 10000

/-- The attribute state a fully initialised `DoubleSlider` would carry: the
inherited integer position of the base slider and the float bounds
`_min_value` / `_max_value`.  The program itself never completes
construction (see `construct`); the methods are embedded over arbitrary
states of this shape so the claims' quantification over states can be
evaluated. -/
structure DoubleSlider where
  rawPos : ℤ
  minValue : ℚ
  maxValue : ℚ
deriving DecidableEq, Repr

namespace DoubleSlider

/-- Property `_value_range`: `self._max_value - self._min_value`. -/
def valueRange (s : DoubleSlider) : ℚ :=
  s.maxValue - s.minValue

/-- `DoubleSlider.value`, fuel-indexed:
`return float(self.value()) / self._max_int * self._value_range`.
The inner `self.value()` dispatches through the MRO back to this very
override (the source has no `super()` call), consuming one stack frame per
round; exhausted fuel is Python's `RecursionError`.  The quotient in the
continuation is computed only if the inner call ever returns — which it
never does. -/
def valueFuel : Nat → DoubleSlider → Except PyError ℚ
  | 0, _ => Except.error PyError.recursionError
  | n + 1, s =>
      (valueFuel n s).bind (fun inner =>
        Except.ok (inner / ((maxInt : ℤ) : ℚ) * valueRange s))

/-- `DoubleSlider.setValue`, fuel-indexed:
`self.setValue(int(value / self._value_range * self._max_int))`.
The argument is evaluated first, so a zero `_value_range` raises
`ZeroDivisionError`; otherwise the call dispatches back to this override
(no `super()`), with the truncated integer as the new `value`, consuming
stack until `RecursionError`.  No integer position is ever stored. -/
def setValueFuel : Nat → DoubleSlider → ℚ → Except PyError DoubleSlider
  | 0, _, _ => Except.error PyError.recursionError
  | n + 1, s, v =>
      if valueRange s = 0 then Except.error PyError.zeroDivision
      else setValueFuel n s
        ((pyInt (v / valueRange s * ((maxInt : ℤ) : ℚ)) : ℤ) : ℚ)

/-- `DoubleSlider.setRange`, fuel-indexed: its first statement
`old_value = self.value()` re-enters the recursive `value` override, so the
bounds assignments and the final `self.setValue(old_value)` are never
reached. -/
def setRangeFuel : Nat → DoubleSlider → ℚ → ℚ → Except PyError DoubleSlider
  | 0, _, _, _ => Except.error PyError.recursionError
  | n + 1, s, minimum, maximum =>
      (valueFuel n s).bind (fun oldValue =>
        setValueFuel n (DoubleSlider.mk s.rawPos minimum maximum) oldValue)

/-- `DoubleSlider.proportion`, fuel-indexed:
`return (self.value() - self._min_value) / self._value_range`.
The numerator's `self.value()` is evaluated before the division, so the
recursive override is entered (and `RecursionError` raised) before any
division-by-zero could fire. -/
def proportionFuel : Nat → DoubleSlider → Except PyError ℚ
  | 0, _ => Except.error PyError.recursionError
  | n + 1, s =>
      (valueFuel n s).bind (fun val =>
        if valueRange s = 0 then Except.error PyError.zeroDivision
        else Except.ok ((val - s.minValue) / valueRange s))

/-- `DoubleSlider.__init__`.  After `QSlider.__init__`, the first statement
`self.setMinimum(0)` dispatches to the float override
`setMinimum(self, value): self.setRange(value, self._max_value)`, which
reads `self._max_value`; that attribute is first assigned only at the end of
`__init__`, so the read raises `AttributeError` and construction never
completes: the program produces no `DoubleSlider` instance (in particular
none with the would-be default bounds `(0.0, 100.0)`), and the base slider's
integer range is never changed from the toolkit default. -/
def construct : Except PyError DoubleSlider :=
  Except.error PyError.attributeError

end DoubleSlider

/-! ### gui_elements.py: Group operations returning sentinels -/

/-- An item held by the group's `_widget_container` layout: `add_layout`
inserts nested layouts, `add_widget` inserts widgets.  The payload is an
opaque identifier for the toolkit object. -/
inductive ContainerItem where
  | layoutItem : Nat → ContainerItem
  | widgetItem : Nat → ContainerItem
deriving DecidableEq, Repr

/-- The part of a `Group`'s state its sentinel-returning operations touch:
the items of `_widget_container`, the group-box title and the interior
label's text. -/
structure Group where
  items : List ContainerItem
  title : String
  label : String
deriving DecidableEq, Repr

/-- The `self._insert` diagnostic prefix `"{module}.{class}."` built in
`Group.__init__`. -/
def groupInsert : String := "gui_elements.Group."

namespace Group

/-- `Group.add_layout`: a truthy (non-`None`) layout is appended to the
widget container and `Success()` returned; otherwise a `Failure` carrying the
logged diagnostic is returned and nothing changes. -/
def add_layout (g : Group) (layout : Option Nat) : Group × PyResult :=
  match layout with
  | Option.some l =>
      (Group.mk (g.items ++ [ContainerItem.layoutItem l]) g.title g.label,
        Success Option.none)
  | Option.none =>
      (g, Failure (Option.some (groupInsert ++ "add_layout(): layout Argument missing")))

/-- `Group.add_widget`: a truthy (non-`None`) widget is appended to the
widget container and `Success()` returned; otherwise a `Failure` carrying the
logged diagnostic is returned and nothing changes. -/
def add_widget (g : Group) (widget : Option Nat) : Group × PyResult :=
  match widget with
  | Option.some w =>
      (Group.mk (g.items ++ [ContainerItem.widgetItem w]) g.title g.label,
        Success Option.none)
  | Option.none =>
      (g, Failure (Option.some (groupInsert ++ "add_widget(): widget Argument missing")))

/-- `Group.set_title`: guarded by `if title:`, so both `None` and the empty
string fall to the failure branch; a truthy title is installed with
`Success()` returned. -/
def set_title (g : Group) (title : Option String) : Group × PyResult :=
  if title.getD "" = "" then
    (g, Failure (Option.some (groupInsert ++ "set_title(): title Argument missing")))
  else
    (Group.mk g.items (title.getD "") g.label, Success Option.none)

/-- `Group.set_label`: guarded by `if label or label == '':`, so the empty
string is accepted and applied; only `None` falls to the failure branch. -/
def set_label (g : Group) (label : Option String) : Group × PyResult :=
  match label with
  | Option.some l => (Group.mk g.items g.title l, Success Option.none)
  | Option.none =>
      (g, Failure (Option.some (groupInsert ++ "set_label(): label Argument missing")))

end Group

end Widgets

/-! ### Helper lemmas: the DoubleSlider methods crash on every path -/

namespace Widgets

/-- `value()` exhausts the stack at every fuel and every state: the inner
`self.value()` recurses unconditionally. -/
theorem valueFuel_err (n : Nat) (s : DoubleSlider) :
    DoubleSlider.valueFuel n s = Except.error PyError.recursionError := by
  induction n with
  | zero => rfl
  | succ n ih =>
      show (DoubleSlider.valueFuel n s).bind _ = _
      rw [ih]
      rfl

/-- `setValue()` never produces a post-state: each non-degenerate round
re-enters itself, and the degenerate round raises before any store. -/
theorem setValueFuel_no_ok (n : Nat) : ∀ (s : DoubleSlider) (v : ℚ) (t : DoubleSlider),
    DoubleSlider.setValueFuel n s v ≠ Except.ok t := by
  induction n with
  | zero =>
      intro s v t h
      exact Except.noConfusion h
  | succ n ih =>
      intro s v t h
      simp only [DoubleSlider.setValueFuel] at h
      by_cases hr : DoubleSlider.valueRange s = 0
      · rw [if_pos hr] at h
        exact Except.noConfusion h
      · rw [if_neg hr] at h
        exact ih _ _ _ h

/-- `setRange()` exhausts the stack at every fuel, state and bounds: its
first statement reads `self.value()`. -/
theorem setRangeFuel_err (n : Nat) (s : DoubleSlider) (mn mx : ℚ) :
    DoubleSlider.setRangeFuel n s mn mx = Except.error PyError.recursionError := by
  cases n with
  | zero => rfl
  | succ n =>
      show (DoubleSlider.valueFuel n s).bind _ = _
      rw [valueFuel_err]
      rfl

/-- `proportion()` exhausts the stack at every fuel and state: the
numerator's `self.value()` is evaluated before the division. -/
theorem proportionFuel_err (n : Nat) (s : DoubleSlider) :
    DoubleSlider.proportionFuel n s = Except.error PyError.recursionError := by
  cases n with
  | zero => rfl
  | succ n =>
      show (DoubleSlider.valueFuel n s).bind _ = _
      rw [valueFuel_err]
      rfl

end Widgets

/-! ### Claims C1 - C7: the DoubleSlider -/

namespace Widgets

/-- Claim C1 (code bug): the claim says `get_value()` returns
`raw_position / resolution * (max_value - min_value) + min_value`; in the
code, `value()` is `float(self.value()) / self._max_int * self._value_range`
whose inner `self.value()` dispatches back to the override itself, so the
call raises `RecursionError` at every state and every stack budget and never
returns a value (the expression as written would also lack the
`+ min_value` term). -/
theorem C1_value_raises_recursion (n : Nat) (s : DoubleSlider) :
    DoubleSlider.valueFuel n s = Except.error PyError.recursionError :=
  valueFuel_err n s

/-- Claim C2 (code bug): the claim says a `DomainError` is signalled on a
zero-width range; the code defines no `DomainError`: on a degenerate state
`set_value` raises the propagated `ZeroDivisionError` from its unguarded
division, while `get_proportion` and `set_range` raise `RecursionError`
(their `self.value()` call recurses before any division), and
`DoubleSlider.__init__` itself raises `AttributeError`, so the spec's
`set_range(5, 5)` scenario cannot even be set up. -/
theorem C2_no_domain_error (n : Nat) (raw : ℤ) (mn v a b : ℚ) :
    DoubleSlider.setValueFuel (n + 1) (DoubleSlider.mk raw mn mn) v =
      Except.error PyError.zeroDivision ∧
    DoubleSlider.proportionFuel n (DoubleSlider.mk raw mn mn) =
      Except.error PyError.recursionError ∧
    DoubleSlider.setRangeFuel n (DoubleSlider.mk raw mn mn) a b =
      Except.error PyError.recursionError ∧
    DoubleSlider.construct = Except.error PyError.attributeError ∧
    PyError.zeroDivision ≠ PyError.domainError ∧
    PyError.recursionError ≠ PyError.domainError := by
  have hr : DoubleSlider.valueRange (DoubleSlider.mk raw mn mn) = 0 := by
    simp [DoubleSlider.valueRange]
  refine ⟨?_, proportionFuel_err n _, setRangeFuel_err n _ a b, rfl, by decide, by decide⟩
  simp only [DoubleSlider.setValueFuel]
  rw [if_pos hr]

/-- Claim C3 (code bug): the claim says `set_value(v)` sets `raw_position`
to the rounded, clamped rescaling of `v`; in the code, `setValue` calls
`self.setValue(int(...))` — itself, not the base-class setter — so for every
fuel, state and input it ends in an error (`RecursionError`, or
`ZeroDivisionError` on a zero-width range) and never stores any position. -/
theorem C3_setValue_stores_nothing (n : Nat) (s : DoubleSlider) (v : ℚ)
    (t : DoubleSlider) :
    DoubleSlider.setValueFuel n s v ≠ Except.ok t :=
  setValueFuel_no_ok n s v t

/-- Claim C4 (code bug): the claim says `set_range` always succeeds and
preserves the externally-visible value; in the code, `setRange` begins with
`old_value = self.value()`, which recurses and raises `RecursionError` for
every state, bounds and stack budget — it never succeeds, never assigns the
bounds, and never preserves anything. -/
theorem C4_setRange_raises_recursion (n : Nat) (s : DoubleSlider) (mn mx : ℚ) :
    DoubleSlider.setRangeFuel n s mn mx = Except.error PyError.recursionError :=
  setRangeFuel_err n s mn mx

/-- Claim C5 (code bug): the claim says `set_value(v)` then `get_value()`
returns within one quantization step of `v`; in the code the round trip
produces no read-back value at all: even if `set_value` yielded a post-state
(it does not), `get_value()` on it raises `RecursionError`. -/
theorem C5_roundtrip_never_returns (n m : Nat) (s t : DoubleSlider) (v q : ℚ) :
    ¬ (DoubleSlider.setValueFuel n s v = Except.ok t ∧
        DoubleSlider.valueFuel m t = Except.ok q) := by
  intro h
  have h2 := h.2
  rw [valueFuel_err] at h2
  exact Except.noConfusion h2

/-- Claim C6 (code bug): the claim says `get_proportion()` returns
`(get_value() - min_value) / (max_value - min_value)` inside `[0, 1]`; in
the code, `proportion` evaluates the self-recursive `self.value()` before
its division and raises `RecursionError` at every state and fuel — it never
returns a quotient. -/
theorem C6_proportion_raises_recursion (n : Nat) (s : DoubleSlider) :
    DoubleSlider.proportionFuel n s = Except.error PyError.recursionError :=
  proportionFuel_err n s

/-- Claim C7 (code bug): the claim says `get_value()` is monotone in
`raw_position`; in the code, `value()` never returns at any position — there
exists no fuel, state and rational with `valueFuel` succeeding — so there
are no return values over which monotonicity could hold. -/
theorem C7_value_never_returns (n : Nat) (s : DoubleSlider) (q : ℚ) :
    DoubleSlider.valueFuel n s ≠ Except.ok q := by
  rw [valueFuel_err]
  exact fun h => Except.noConfusion h

end Widgets

/-! ### Claims C8 - C10: sentinels and Group operations -/

namespace Widgets

/-- Claim C8 (confirmed): for every optional message, a `Success` instance is
truthy and a `Failure` instance is falsy (the identity is fixed at
construction by the stored integer); constructing either variant with message
`"ok"` makes `.message` equal `"ok"`; and a `Failure` built with no message
leaves `.message` absent (`None`) rather than failing. -/
theorem C8_sentinel_behaviour (m : Option String) :
    (Success m).toBool = true ∧
    (Failure m).toBool = false ∧
    (Success (Option.some "ok")).message = Option.some "ok" ∧
    (Failure (Option.some "ok")).message = Option.some "ok" ∧
    (Failure Option.none).message = Option.none :=
  ⟨rfl, rfl, rfl, rfl, rfl⟩

/-- Claim C9 (confirmed): `add_layout`, `add_widget` and `set_title` return a
`Failure` carrying a diagnostic message and leave the group unchanged when the
required argument is missing (absent or falsy), and perform the update and
return a `Success` when it is present. -/
theorem C9_group_operations (g : Group) (l w : Nat) (t : String) (ht : t ≠ "") :
    ((Group.add_layout g Option.none).1 = g ∧
      (Group.add_layout g Option.none).2.toBool = false ∧
      (Group.add_layout g Option.none).2.message ≠ Option.none) ∧
    ((Group.add_layout g (Option.some l)).1 =
        Group.mk (g.items ++ [ContainerItem.layoutItem l]) g.title g.label ∧
      (Group.add_layout g (Option.some l)).2.toBool = true) ∧
    ((Group.add_widget g Option.none).1 = g ∧
      (Group.add_widget g Option.none).2.toBool = false ∧
      (Group.add_widget g Option.none).2.message ≠ Option.none) ∧
    ((Group.add_widget g (Option.some w)).1 =
        Group.mk (g.items ++ [ContainerItem.widgetItem w]) g.title g.label ∧
      (Group.add_widget g (Option.some w)).2.toBool = true) ∧
    ((Group.set_title g Option.none).1 = g ∧
      (Group.set_title g Option.none).2.toBool = false ∧
      (Group.set_title g Option.none).2.message ≠ Option.none) ∧
    ((Group.set_title g (Option.some t)).1 = Group.mk g.items t g.label ∧
      (Group.set_title g (Option.some t)).2.toBool = true) := by
  refine ⟨⟨rfl, rfl, by simp [Group.add_layout, Failure]⟩,
    ⟨rfl, rfl⟩,
    ⟨rfl, rfl, by simp [Group.add_widget, Failure]⟩,
    ⟨rfl, rfl⟩,
    ⟨rfl, rfl, by simp [Group.set_title, Failure]⟩,
    ?_, ?_⟩ <;>
  simp [Group.set_title, ht, Success, Failure, PyResult.toBool]

/-- Claim C9, witness: the operations on the group with empty container,
title `"t"` and label `"l"`, with arguments `1`, `2` and `"T"`. -/
theorem C9_group_operations_witness :
    ("T" : String) ≠ "" ∧
    (Group.add_layout (Group.mk [] "t" "l") Option.none).1 = Group.mk [] "t" "l" ∧
    (Group.add_layout (Group.mk [] "t" "l") (Option.some 1)).1 =
      Group.mk [ContainerItem.layoutItem 1] "t" "l" ∧
    (Group.set_title (Group.mk [] "t" "l") (Option.some "T")).2.toBool = true :=
  ⟨by decide,
    (C9_group_operations (Group.mk [] "t" "l") 1 2 "T" (by decide)).1.1,
    (C9_group_operations (Group.mk [] "t" "l") 1 2 "T" (by decide)).2.1.1,
    (C9_group_operations (Group.mk [] "t" "l") 1 2 "T" (by decide)).2.2.2.2.2.2⟩

/-- Claim C10 (confirmed): the empty string is treated asymmetrically —
`set_title("")` takes the falsy branch, returning a `Failure` and leaving the
group unchanged, while `set_label("")` returns a `Success` and sets the label
text to the empty string. -/
theorem C10_empty_title_vs_label (g : Group) :
    (Group.set_title g (Option.some "")).1 = g ∧
    (Group.set_title g (Option.some "")).2.toBool = false ∧
    (Group.set_title g (Option.some "")).2.message ≠ Option.none ∧
    (Group.set_label g (Option.some "")).1 = Group.mk g.items g.title "" ∧
    (Group.set_label g (Option.some "")).2.toBool = true := by
  refine ⟨rfl, rfl, by simp [Group.set_title, Failure], rfl, rfl⟩

end Widgets
